import Mathlib

/-!
# Verification of the wage-app shift/pay engine

Shallow embedding of `src/app/lib/engine/month.ts` (the row-breakdown and
month-aggregation engine of the wage app) together with the `Settings`
record it is compiled against (the revision whose field names `month.ts`
reads: `baseRate, otAddOn, latePremium, nightPremium, holidayRate,
otThreshold, doubleRate`).

JavaScript numbers are modelled as exact rationals (`ℚ`).  `Math.round`
rounds half toward positive infinity, which on exact rationals is
`⌊x + 1/2⌋`; the `Number.EPSILON` fudge term in the source's `round2` only
compensates binary floating-point representation error and vanishes in the
exact model.  Non-finite numbers do not exist in `ℚ`; in the source every
numeric input flows through `clampNonNeg`, which maps non-finite values to
`0`, so on `ℚ` `clampNonNeg` is `max 0`.  Optional fields become `Option`,
and the source's truthiness tests (`t || ""`, `whRaw || baseShift`,
`r.startTime &&`) are translated case by case at their use sites.
-/

namespace Wage

/-- `round2` from `month.ts`: round to 2 decimal places, half away from
zero upward (JS `Math.round((n + ε) * 100) / 100` on exact numbers). -/
def round2 (q : ℚ) : ℚ := ((⌊q * 100 + 1/2⌋ : ℤ) : ℚ) / 100

/-- `clampNonNeg` from `month.ts`: `Number.isFinite(n) ? Math.max(0, n) : 0`.
Rationals are always finite, so this is `max 0`. -/
def clampNonNeg (q : ℚ) : ℚ := max 0 q

/-- JS `Math.round`: round half toward +∞. -/
def jsRound (q : ℚ) : ℤ := ⌊q + 1/2⌋

/-- Numeric value of a decimal digit character. -/
def digitVal (c : Char) : ℕ := c.toNat - 48

/-- Whitespace for the purposes of JS `String.prototype.trim`. -/
def isWS (c : Char) : Bool := c = ' ' ∨ c = '\t' ∨ c = '\n' ∨ c = '\r'

/-- JS `String.prototype.trim` on the character list: drop whitespace from
both ends. -/
def trimChars (cs : List Char) : List Char :=
  ((cs.dropWhile isWS).reverse.dropWhile isWS).reverse

/-- The shape accepted by the regex `^(\d{1,2}):(\d{2})(?::\d{2})?$` of
`toMinutes`: one or two hour digits, a colon, exactly two minute digits,
and an optional colon plus exactly two (ignored) second digits. -/
def parseHM : List Char → Option (ℕ × ℕ)
  | [a, ':', c, d] =>
    if a.isDigit ∧ c.isDigit ∧ d.isDigit then
      some (digitVal a, 10 * digitVal c + digitVal d)
    else none
  | [a, b, ':', c, d] =>
    if a.isDigit ∧ b.isDigit ∧ c.isDigit ∧ d.isDigit then
      some (10 * digitVal a + digitVal b, 10 * digitVal c + digitVal d)
    else none
  | [a, ':', c, d, ':', e, f] =>
    if a.isDigit ∧ c.isDigit ∧ d.isDigit ∧ e.isDigit ∧ f.isDigit then
      some (digitVal a, 10 * digitVal c + digitVal d)
    else none
  | [a, b, ':', c, d, ':', e, f] =>
    if a.isDigit ∧ b.isDigit ∧ c.isDigit ∧ d.isDigit ∧ e.isDigit ∧ f.isDigit then
      some (10 * digitVal a + digitVal b, 10 * digitVal c + digitVal d)
    else none
  | _ => none

/-- `toMinutes` from `month.ts`: parse `"HH:MM"` (optionally `"HH:MM:SS"`)
after trimming, range-check hour and minute, return minutes from midnight.
`NaN` is modelled as `none`. -/
def toMinutes (t : String) : Option ℕ :=
  match parseHM (trimChars t.toList) with
  | some (hh, mm) => if hh ≤ 23 ∧ mm ≤ 59 then some (hh * 60 + mm) else none
  | none => none

/-- `toMinutes(t || "")` applied to an optional string. -/
def toMinutesD (t : Option String) : Option ℕ := toMinutes (t.getD "")

/-- `computeWorkedHours` from `month.ts`. -/
def computeWorkedHours (startTime endTime : Option String) : ℚ :=
  match toMinutesD startTime, toMinutesD endTime with
  | some s, some e0 =>
    let e : ℤ := if e0 ≤ s then (e0 : ℤ) + 24 * 60 else (e0 : ℤ)
    let minutes : ℤ := max 0 (e - (s : ℤ))
    round2 ((minutes : ℚ) / 60)
  | _, _ => 0

/-- Result record of `computeLateNightHours`. -/
structure LateNight where
  lateHours : ℚ
  nightHours : ℚ

/-- The local `overlap` helper of `computeLateNightHours`. -/
def overlap (sA eA sB eB : ℤ) : ℤ := max 0 (min eA eB - max sA sB)

/-- Late minutes of the span `[s, e]`: overlap with the 14:00–22:00 window,
summed over day offsets −1, 0, 1 (base = offset · 24 · 60). -/
def lateMinutes (s e : ℤ) : ℤ :=
  overlap s e (-1440 + 840) (-1440 + 1320) +
  overlap s e 840 1320 +
  overlap s e (1440 + 840) (1440 + 1320)

/-- Night minutes of the span `[s, e]`: overlap with the 22:00–24:00 and
24:00–30:00 segments, summed over day offsets −1, 0, 1. -/
def nightMinutes (s e : ℤ) : ℤ :=
  (overlap s e (-1440 + 1320) (-1440 + 1440) + overlap s e (-1440 + 1440) (-1440 + 1800)) +
  (overlap s e 1320 1440 + overlap s e 1440 1800) +
  (overlap s e (1440 + 1320) (1440 + 1440) + overlap s e (1440 + 1440) (1440 + 1800))

/-- `computeLateNightHours` from `month.ts`. -/
def computeLateNightHours (startTime endTime : Option String) : LateNight :=
  match toMinutesD startTime, toMinutesD endTime with
  | some s0, some e0 =>
    let s : ℤ := (s0 : ℤ)
    let e : ℤ := if e0 ≤ s0 then (e0 : ℤ) + 24 * 60 else (e0 : ℤ)
    { lateHours := round2 ((lateMinutes s e : ℚ) / 60)
      nightHours := round2 ((nightMinutes s e : ℚ) / 60) }
  | _, _ => { lateHours := 0, nightHours := 0 }

/-- `String(n).padStart(2, "0")` for `n ≤ 99`. -/
def pad2 (n : ℕ) : String := if n < 10 then "0" ++ toString n else toString n

/-- Format a minutes-from-midnight value (`< 1440`) as `"HH:MM"`. -/
def fmtHM (total : ℕ) : String := pad2 (total / 60) ++ ":" ++ pad2 (total % 60)

/-- `addHoursToTime` from `month.ts`. -/
def addHoursToTime (startTime : String) (hours : ℚ) : String :=
  match toMinutes startTime with
  | none => ""
  | some s =>
    let mins : ℕ := (jsRound (clampNonNeg hours * 60)).toNat
    fmtHM ((s + mins) % (24 * 60))

/-- `ShiftRow` from `month.ts`.  Flags are the strings `""`, `"Y"`, `"P"`;
optional fields are `Option`-valued. -/
structure ShiftRow where
  id : String := ""
  date : String := ""
  scheduledHours : Option ℚ := none
  startTime : Option String := none
  endTime : Option String := none
  holidayFlag : Option String := none
  unpaidFlag : Option String := none
  lieuFlag : Option String := none
  bankHolFlag : Option String := none
  doubleFlag : Option String := none
  sickHours : Option ℚ := none

/-- The record returned by `computeRowBreakdown`. -/
structure RowBreakdown where
  worked : ℚ
  hol : ℚ
  lieu : ℚ
  bankHol : ℚ
  dbl : ℚ
  unpaidFull : ℚ
  unpaidPart : ℚ
  sick : ℚ
  late : ℚ
  night : ℚ

/-- `const sh = clampNonNeg(Number(r.scheduledHours) || 0)`. -/
def sh (r : ShiftRow) : ℚ := clampNonNeg (r.scheduledHours.getD 0)

/-- `const whRaw = clampNonNeg(computeWorkedHours(r.startTime, r.endTime))`. -/
def whRaw (r : ShiftRow) : ℚ := clampNonNeg (computeWorkedHours r.startTime r.endTime)

/-- `const baseShift = sh > 0 ? sh : whRaw`. -/
def baseShift (r : ShiftRow) : ℚ := if 0 < sh r then sh r else whRaw r

/-- One of the four full absence flags (`unpaid/holiday/lieu/bankHol = "Y"`)
is set: exactly the condition that zeroes `workedPhysical`. -/
def offFull (r : ShiftRow) : Prop :=
  r.unpaidFlag = some "Y" ∨ r.holidayFlag = some "Y" ∨
  r.lieuFlag = some "Y" ∨ r.bankHolFlag = some "Y"

instance (r : ShiftRow) : Decidable (offFull r) := by unfold offFull; infer_instance

/-- `workedPhysical` of `computeRowBreakdown`. -/
def workedPhysical (r : ShiftRow) : ℚ :=
  if offFull r then 0 else min (whRaw r) (baseShift r)

/-- `let remainder = round2(Math.max(0, baseShift - workedPhysical))`. -/
def remainder0 (r : ShiftRow) : ℚ := round2 (max 0 (baseShift r - workedPhysical r))

/-- The remainder after the FULL-allocation chain (each full branch sets
`remainder = 0`; a full branch runs exactly when `offFull r`). -/
def remainder1 (r : ShiftRow) : ℚ := if offFull r then 0 else remainder0 r

/-- The FULL-allocation `if/else` chain, as the tuple
`(unpaidFull, hol, lieu, bankHol)`. -/
def fullAlloc (r : ShiftRow) : ℚ × ℚ × ℚ × ℚ :=
  if r.unpaidFlag = some "Y" then (baseShift r, 0, 0, 0)
  else if r.holidayFlag = some "Y" then (0, baseShift r, 0, 0)
  else if r.lieuFlag = some "Y" then (0, 0, baseShift r, 0)
  else if r.bankHolFlag = some "Y" then (0, 0, 0, baseShift r)
  else (0, 0, 0, 0)

/-- The double allocation (`out.dbl`): for `double="Y"`,
`round2(Math.min(baseShift, Math.max(0, whRaw || baseShift)))` (a finite
number is falsy exactly when it is `0`); for `double="P"`,
`round2(Math.min(workedPhysical, baseShift / 2))`. -/
def dblHours (r : ShiftRow) : ℚ :=
  if r.doubleFlag = some "Y" then
    round2 (min (baseShift r) (max 0 (if whRaw r = 0 then baseShift r else whRaw r)))
  else if r.doubleFlag = some "P" then
    round2 (min (workedPhysical r) (baseShift r / 2))
  else 0

/-- The PART-allocation chain (guarded by `remainder > 0`), as the tuple
`(unpaidPart, hol, lieu, bankHol)` of amounts added. -/
def partAlloc (r : ShiftRow) : ℚ × ℚ × ℚ × ℚ :=
  if 0 < remainder1 r then
    if r.unpaidFlag = some "P" then (remainder1 r, 0, 0, 0)
    else if r.holidayFlag = some "P" then (0, remainder1 r, 0, 0)
    else if r.lieuFlag = some "P" then (0, 0, remainder1 r, 0)
    else if r.bankHolFlag = some "P" then (0, 0, 0, remainder1 r)
    else (0, 0, 0, 0)
  else (0, 0, 0, 0)

/-- `const premiumsBlocked = fullHol || fullUnpaid`. -/
def premiumsBlocked (r : ShiftRow) : Prop :=
  r.holidayFlag = some "Y" ∨ r.unpaidFlag = some "Y"

instance (r : ShiftRow) : Decidable (premiumsBlocked r) := by
  unfold premiumsBlocked; infer_instance

/-- `premiumsProtected`: one of `lieuFlag`, `bankHolFlag`, `doubleFlag` is
a non-empty string (`?? ""` then `!== ""`). -/
def premiumsProtected (r : ShiftRow) : Prop :=
  r.lieuFlag.getD "" ≠ "" ∨ r.bankHolFlag.getD "" ≠ "" ∨ r.doubleFlag.getD "" ≠ ""

instance (r : ShiftRow) : Decidable (premiumsProtected r) := by
  unfold premiumsProtected; infer_instance

/-- `premEnd`: the end time against which premiums are computed — the
scheduled end `addHoursToTime(r.startTime, sh)` when protected and a
positive schedule exists, otherwise `r.endTime || ""`. -/
def premEnd (r : ShiftRow) : String :=
  if premiumsProtected r ∧ 0 < sh r then
    addHoursToTime (r.startTime.getD "") (sh r)
  else r.endTime.getD ""

/-- The premium block of `computeRowBreakdown`: guarded by
`!premiumsBlocked && baseShift > 0 && r.startTime` (a string is truthy
exactly when non-empty), then applied when `premiumsProtected ||
workedPhysical > 0`. -/
def premiums (r : ShiftRow) : LateNight :=
  if ¬ premiumsBlocked r ∧ 0 < baseShift r ∧ r.startTime.getD "" ≠ "" then
    let p := computeLateNightHours r.startTime (some (premEnd r))
    if premiumsProtected r ∨ 0 < workedPhysical r then
      { lateHours := clampNonNeg p.lateHours, nightHours := clampNonNeg p.nightHours }
    else { lateHours := 0, nightHours := 0 }
  else { lateHours := 0, nightHours := 0 }

/-- `computeRowBreakdown` from `month.ts`, assembled from the pieces above
exactly as the source mutates `out`. -/
def computeRowBreakdown (r : ShiftRow) : RowBreakdown :=
  { worked := workedPhysical r
    hol := (fullAlloc r).2.1 + (partAlloc r).2.1
    lieu := (fullAlloc r).2.2.1 + (partAlloc r).2.2.1
    bankHol := (fullAlloc r).2.2.2 + (partAlloc r).2.2.2
    dbl := dblHours r
    unpaidFull := (fullAlloc r).1
    unpaidPart := (partAlloc r).1
    sick := clampNonNeg (r.sickHours.getD 0)
    late := (premiums r).lateHours
    night := (premiums r).nightHours }

/-- The `Settings` record `month.ts` is compiled against (the revision
whose field names `computeMonthTotals` reads). -/
structure Settings where
  baseRate : ℚ
  otAddOn : ℚ
  latePremium : ℚ
  nightPremium : ℚ
  holidayRate : ℚ
  otThreshold : ℚ
  doubleRate : ℚ

/-- `MonthTotals` from `month.ts`. -/
structure MonthTotals where
  worked : ℚ
  qualifying : ℚ
  std : ℚ
  ot : ℚ
  late : ℚ
  night : ℚ
  hol : ℚ
  lieu : ℚ
  bankHol : ℚ
  dbl : ℚ
  unpaidFull : ℚ
  unpaidPart : ℚ
  sick : ℚ
  stdPay : ℚ
  otPay : ℚ
  sickPay : ℚ
  lateAddPay : ℚ
  nightAddPay : ℚ
  lieuPay : ℚ
  bankHolPay : ℚ
  doublePay : ℚ
  holPay : ℚ
  totalPay : ℚ

/-- Sum of one breakdown field over all rows (the `for` loop of
`computeMonthTotals`, which folds `+` from `0` in list order). -/
def sumBy (rows : List ShiftRow) (f : RowBreakdown → ℚ) : ℚ :=
  (rows.map (fun r => f (computeRowBreakdown r))).sum

def totWorked (rows : List ShiftRow) : ℚ := round2 (sumBy rows (·.worked))

def totHol (rows : List ShiftRow) : ℚ := round2 (sumBy rows (·.hol))

def totLieu (rows : List ShiftRow) : ℚ := round2 (sumBy rows (·.lieu))

def totBankHol (rows : List ShiftRow) : ℚ := round2 (sumBy rows (·.bankHol))

def totDbl (rows : List ShiftRow) : ℚ := round2 (sumBy rows (·.dbl))

def totLate (rows : List ShiftRow) : ℚ := round2 (sumBy rows (·.late))

def totNight (rows : List ShiftRow) : ℚ := round2 (sumBy rows (·.night))

def totUnpaidFull (rows : List ShiftRow) : ℚ := round2 (sumBy rows (·.unpaidFull))

def totUnpaidPart (rows : List ShiftRow) : ℚ := round2 (sumBy rows (·.unpaidPart))

def totSick (rows : List ShiftRow) : ℚ := round2 (sumBy rows (·.sick))

/-- `tot.qualifying = round2(tot.worked + tot.hol + tot.lieu + tot.bankHol)`. -/
def totQualifying (rows : List ShiftRow) : ℚ :=
  round2 (totWorked rows + totHol rows + totLieu rows + totBankHol rows)

/-- `const otRaw = Math.max(0, tot.qualifying - otThreshold)`. -/
def otRaw (rows : List ShiftRow) (s : Settings) : ℚ :=
  max 0 (totQualifying rows - clampNonNeg s.otThreshold)

/-- `const workedAvailableForStdOt = Math.max(0, tot.worked - tot.dbl)`. -/
def workedAvailableForStdOt (rows : List ShiftRow) : ℚ :=
  max 0 (totWorked rows - totDbl rows)

def totOt (rows : List ShiftRow) (s : Settings) : ℚ :=
  round2 (min (workedAvailableForStdOt rows) (otRaw rows s))

def totStd (rows : List ShiftRow) (s : Settings) : ℚ :=
  round2 (max 0 (workedAvailableForStdOt rows - totOt rows s))

/-- `computeMonthTotals` from `month.ts`. -/
def computeMonthTotals (rows : List ShiftRow) (s : Settings) : MonthTotals :=
  let base := clampNonNeg s.baseRate
  let otAdd := clampNonNeg s.otAddOn
  let lateAdd := clampNonNeg s.latePremium
  let nightAdd := clampNonNeg s.nightPremium
  let holRate := clampNonNeg s.holidayRate
  let doubleRate := clampNonNeg s.doubleRate
  let stdPay := round2 (totStd rows s * base)
  let otPay := round2 (totOt rows s * (base + otAdd))
  let sickPay := round2 (totSick rows * base)
  let lateAddPay := round2 (totLate rows * lateAdd)
  let nightAddPay := round2 (totNight rows * nightAdd)
  let lieuPay := round2 (totLieu rows * base)
  let bankHolPay := round2 (totBankHol rows * base)
  let doublePay := round2 (totDbl rows * base * doubleRate)
  let holPay := round2 (totHol rows * holRate)
  { worked := totWorked rows
    qualifying := totQualifying rows
    std := totStd rows s
    ot := totOt rows s
    late := totLate rows
    night := totNight rows
    hol := totHol rows
    lieu := totLieu rows
    bankHol := totBankHol rows
    dbl := totDbl rows
    unpaidFull := totUnpaidFull rows
    unpaidPart := totUnpaidPart rows
    sick := totSick rows
    stdPay := stdPay
    otPay := otPay
    sickPay := sickPay
    lateAddPay := lateAddPay
    nightAddPay := nightAddPay
    lieuPay := lieuPay
    bankHolPay := bankHolPay
    doublePay := doublePay
    holPay := holPay
    totalPay := round2 (stdPay + otPay + sickPay + lateAddPay + nightAddPay +
      lieuPay + bankHolPay + doublePay + holPay) }

/-! ## Basic lemmas about rounding and clamping -/

theorem round2_nonneg {q : ℚ} (h : 0 ≤ q) : 0 ≤ round2 q := by
  unfold round2
  have h1 : (0 : ℤ) ≤ ⌊q * 100 + 1/2⌋ := by
    apply Int.floor_nonneg.mpr
    nlinarith
  positivity

theorem round2_mono {a b : ℚ} (h : a ≤ b) : round2 a ≤ round2 b := by
  unfold round2
  have h1 : ⌊a * 100 + 1/2⌋ ≤ ⌊b * 100 + 1/2⌋ := by
    apply Int.floor_le_floor
    nlinarith
  have h2 : ((⌊a * 100 + 1/2⌋ : ℤ) : ℚ) ≤ ((⌊b * 100 + 1/2⌋ : ℤ) : ℚ) := by
    exact_mod_cast h1
  linarith

/-- A rational is a whole number of hundredths (the image of `round2`). -/
def Cent (q : ℚ) : Prop := ∃ k : ℤ, q = (k : ℚ) / 100

theorem cent_round2 (q : ℚ) : Cent (round2 q) := ⟨⌊q * 100 + 1/2⌋, rfl⟩

theorem round2_of_cent {q : ℚ} (h : Cent q) : round2 q = q := by
  obtain ⟨k, rfl⟩ := h
  unfold round2
  rw [div_mul_cancel₀ _ (by norm_num : (100 : ℚ) ≠ 0)]
  rw [Int.floor_int_add]
  norm_num

theorem Cent.sub {a b : ℚ} (ha : Cent a) (hb : Cent b) : Cent (a - b) := by
  obtain ⟨k, rfl⟩ := ha
  obtain ⟨l, rfl⟩ := hb
  exact ⟨k - l, by push_cast; ring⟩

theorem Cent.max_zero {a : ℚ} (ha : Cent a) : Cent (max 0 a) := by
  obtain ⟨k, rfl⟩ := ha
  refine ⟨max 0 k, ?_⟩
  rcases le_total (0 : ℤ) k with h | h
  · rw [max_eq_right h, max_eq_right]
    positivity
  · rw [max_eq_left h, max_eq_left]
    · norm_num
    · have : ((k : ℚ)) ≤ 0 := by exact_mod_cast h
      linarith

theorem clampNonNeg_nonneg (q : ℚ) : 0 ≤ clampNonNeg q := le_max_left 0 q

theorem clampNonNeg_of_nonneg {q : ℚ} (h : 0 ≤ q) : clampNonNeg q = q :=
  max_eq_right h

/-! ## Lemmas about the time parser and formatter -/

theorem toMinutes_lt_1440 {t : String} {s : ℕ} (h : toMinutes t = some s) :
    s < 1440 := by
  unfold toMinutes at h
  rcases hp : parseHM (trimChars t.toList) with _ | ⟨hh, mm⟩
  · rw [hp] at h; exact absurd h (by simp)
  · rw [hp] at h
    dsimp only at h
    split_ifs at h with hr
    obtain ⟨h1, h2⟩ := hr
    have := Option.some.inj h
    omega

theorem toMinutes_empty : toMinutes "" = none := by decide

theorem toMinutes_ne_empty {t : String} {s : ℕ} (h : toMinutes t = some s) :
    t ≠ "" := by
  intro he
  rw [he, toMinutes_empty] at h
  exact absurd h (by simp)

set_option maxRecDepth 4000 in
theorem toMinutes_pad2 : ∀ hh : ℕ, hh < 24 → ∀ mm : ℕ, mm < 60 →
    toMinutes (pad2 hh ++ ":" ++ pad2 mm) = some (hh * 60 + mm) := by decide

theorem toMinutes_fmtHM {x : ℕ} (h : x < 1440) : toMinutes (fmtHM x) = some x := by
  have h1 : x / 60 < 24 := by omega
  have h2 : x % 60 < 60 := Nat.mod_lt _ (by norm_num)
  have := toMinutes_pad2 (x / 60) h1 (x % 60) h2
  unfold fmtHM
  rw [this]
  congr 1
  omega

theorem addHoursToTime_of_some {t : String} {s : ℕ} (h : toMinutes t = some s)
    (q : ℚ) :
    addHoursToTime t q = fmtHM ((s + (jsRound (clampNonNeg q * 60)).toNat) % 1440) := by
  unfold addHoursToTime
  rw [h]

theorem overlap_nonneg (sA eA sB eB : ℤ) : 0 ≤ overlap sA eA sB eB :=
  le_max_left _ _

theorem lateMinutes_nonneg (s e : ℤ) : 0 ≤ lateMinutes s e := by
  unfold lateMinutes
  have := overlap_nonneg s e (-1440 + 840) (-1440 + 1320)
  have := overlap_nonneg s e 840 1320
  have := overlap_nonneg s e (1440 + 840) (1440 + 1320)
  linarith

theorem nightMinutes_nonneg (s e : ℤ) : 0 ≤ nightMinutes s e := by
  unfold nightMinutes
  have := overlap_nonneg s e (-1440 + 1320) (-1440 + 1440)
  have := overlap_nonneg s e (-1440 + 1440) (-1440 + 1800)
  have := overlap_nonneg s e 1320 1440
  have := overlap_nonneg s e 1440 1800
  have := overlap_nonneg s e (1440 + 1320) (1440 + 1440)
  have := overlap_nonneg s e (1440 + 1440) (1440 + 1800)
  linarith

/-! ## Non-negativity of the row breakdown components -/

theorem sh_nonneg (r : ShiftRow) : 0 ≤ sh r := clampNonNeg_nonneg _

theorem whRaw_nonneg (r : ShiftRow) : 0 ≤ whRaw r := clampNonNeg_nonneg _

theorem baseShift_nonneg (r : ShiftRow) : 0 ≤ baseShift r := by
  unfold baseShift
  split_ifs with h
  · exact le_of_lt h
  · exact whRaw_nonneg r

theorem workedPhysical_nonneg (r : ShiftRow) : 0 ≤ workedPhysical r := by
  unfold workedPhysical
  split_ifs
  · exact le_refl 0
  · exact le_min (whRaw_nonneg r) (baseShift_nonneg r)

theorem remainder1_nonneg (r : ShiftRow) : 0 ≤ remainder1 r := by
  unfold remainder1 remainder0
  split_ifs
  · exact le_refl 0
  · exact round2_nonneg (le_max_left _ _)

theorem fullAlloc_nonneg (r : ShiftRow) :
    0 ≤ (fullAlloc r).1 ∧ 0 ≤ (fullAlloc r).2.1 ∧
    0 ≤ (fullAlloc r).2.2.1 ∧ 0 ≤ (fullAlloc r).2.2.2 := by
  unfold fullAlloc
  split_ifs <;>
    exact ⟨by first | exact le_refl 0 | exact baseShift_nonneg r,
           by first | exact le_refl 0 | exact baseShift_nonneg r,
           by first | exact le_refl 0 | exact baseShift_nonneg r,
           by first | exact le_refl 0 | exact baseShift_nonneg r⟩

theorem partAlloc_nonneg (r : ShiftRow) :
    0 ≤ (partAlloc r).1 ∧ 0 ≤ (partAlloc r).2.1 ∧
    0 ≤ (partAlloc r).2.2.1 ∧ 0 ≤ (partAlloc r).2.2.2 := by
  unfold partAlloc
  split_ifs <;>
    exact ⟨by first | exact le_refl 0 | exact remainder1_nonneg r,
           by first | exact le_refl 0 | exact remainder1_nonneg r,
           by first | exact le_refl 0 | exact remainder1_nonneg r,
           by first | exact le_refl 0 | exact remainder1_nonneg r⟩

theorem dblHours_nonneg (r : ShiftRow) : 0 ≤ dblHours r := by
  unfold dblHours
  split_ifs
  · exact round2_nonneg (le_min (baseShift_nonneg r) (le_max_left _ _))
  · exact round2_nonneg (le_min (baseShift_nonneg r) (le_max_left _ _))
  · exact round2_nonneg (le_min (workedPhysical_nonneg r)
      (by have := baseShift_nonneg r; linarith))
  · exact le_refl (0 : ℚ)

theorem premiums_nonneg (r : ShiftRow) :
    0 ≤ (premiums r).lateHours ∧ 0 ≤ (premiums r).nightHours := by
  unfold premiums
  split_ifs <;> exact ⟨by first | exact clampNonNeg_nonneg _ | exact le_refl 0,
    by first | exact clampNonNeg_nonneg _ | exact le_refl 0⟩

theorem breakdown_nonneg (r : ShiftRow) :
    0 ≤ (computeRowBreakdown r).worked ∧ 0 ≤ (computeRowBreakdown r).hol ∧
    0 ≤ (computeRowBreakdown r).lieu ∧ 0 ≤ (computeRowBreakdown r).bankHol ∧
    0 ≤ (computeRowBreakdown r).dbl ∧ 0 ≤ (computeRowBreakdown r).unpaidFull ∧
    0 ≤ (computeRowBreakdown r).unpaidPart ∧ 0 ≤ (computeRowBreakdown r).sick ∧
    0 ≤ (computeRowBreakdown r).late ∧ 0 ≤ (computeRowBreakdown r).night := by
  obtain ⟨f1, f2, f3, f4⟩ := fullAlloc_nonneg r
  obtain ⟨p1, p2, p3, p4⟩ := partAlloc_nonneg r
  obtain ⟨q1, q2⟩ := premiums_nonneg r
  refine ⟨workedPhysical_nonneg r, ?_, ?_, ?_, dblHours_nonneg r, f1, p1,
    clampNonNeg_nonneg _, q1, q2⟩ <;> simp only [computeRowBreakdown] <;> positivity

/-! ## Non-negativity and cent-value facts about the month totals -/

theorem sumBy_nonneg (rows : List ShiftRow) (f : RowBreakdown → ℚ)
    (h : ∀ r, 0 ≤ f (computeRowBreakdown r)) : 0 ≤ sumBy rows f := by
  unfold sumBy
  apply List.sum_nonneg
  intro x hx
  simp only [List.mem_map] at hx
  obtain ⟨r, _, rfl⟩ := hx
  exact h r

theorem totWorked_nonneg (rows : List ShiftRow) : 0 ≤ totWorked rows :=
  round2_nonneg (sumBy_nonneg _ _ fun r => (breakdown_nonneg r).1)

theorem totHol_nonneg (rows : List ShiftRow) : 0 ≤ totHol rows :=
  round2_nonneg (sumBy_nonneg _ _ fun r => (breakdown_nonneg r).2.1)

theorem totLieu_nonneg (rows : List ShiftRow) : 0 ≤ totLieu rows :=
  round2_nonneg (sumBy_nonneg _ _ fun r => (breakdown_nonneg r).2.2.1)

theorem totBankHol_nonneg (rows : List ShiftRow) : 0 ≤ totBankHol rows :=
  round2_nonneg (sumBy_nonneg _ _ fun r => (breakdown_nonneg r).2.2.2.1)

theorem totDbl_nonneg (rows : List ShiftRow) : 0 ≤ totDbl rows :=
  round2_nonneg (sumBy_nonneg _ _ fun r => (breakdown_nonneg r).2.2.2.2.1)

theorem totLate_nonneg (rows : List ShiftRow) : 0 ≤ totLate rows :=
  round2_nonneg (sumBy_nonneg _ _ fun r => (breakdown_nonneg r).2.2.2.2.2.2.2.2.1)

theorem totNight_nonneg (rows : List ShiftRow) : 0 ≤ totNight rows :=
  round2_nonneg (sumBy_nonneg _ _ fun r => (breakdown_nonneg r).2.2.2.2.2.2.2.2.2)

theorem totUnpaidFull_nonneg (rows : List ShiftRow) : 0 ≤ totUnpaidFull rows :=
  round2_nonneg (sumBy_nonneg _ _ fun r => (breakdown_nonneg r).2.2.2.2.2.1)

theorem totUnpaidPart_nonneg (rows : List ShiftRow) : 0 ≤ totUnpaidPart rows :=
  round2_nonneg (sumBy_nonneg _ _ fun r => (breakdown_nonneg r).2.2.2.2.2.2.1)

theorem totSick_nonneg (rows : List ShiftRow) : 0 ≤ totSick rows :=
  round2_nonneg (sumBy_nonneg _ _ fun r => (breakdown_nonneg r).2.2.2.2.2.2.2.1)

theorem totQualifying_nonneg (rows : List ShiftRow) : 0 ≤ totQualifying rows := by
  have h1 := totWorked_nonneg rows
  have h2 := totHol_nonneg rows
  have h3 := totLieu_nonneg rows
  have h4 := totBankHol_nonneg rows
  exact round2_nonneg (by linarith)

theorem totOt_nonneg (rows : List ShiftRow) (s : Settings) : 0 ≤ totOt rows s :=
  round2_nonneg (le_min (le_max_left _ _) (le_max_left _ _))

theorem totStd_nonneg (rows : List ShiftRow) (s : Settings) : 0 ≤ totStd rows s :=
  round2_nonneg (le_max_left _ _)

theorem workedAvailable_cent (rows : List ShiftRow) :
    Cent (workedAvailableForStdOt rows) := by
  unfold workedAvailableForStdOt
  apply Cent.max_zero
  apply Cent.sub
  · exact cent_round2 _
  · exact cent_round2 _

/-- Overtime hours never exceed the double-excluded worked total: `round2`
is monotone and fixes the 2-decimal value `workedAvailableForStdOt`. -/
theorem totOt_le_workedAvailable (rows : List ShiftRow) (s : Settings) :
    totOt rows s ≤ workedAvailableForStdOt rows := by
  unfold totOt
  calc round2 (min (workedAvailableForStdOt rows) (otRaw rows s))
      ≤ round2 (workedAvailableForStdOt rows) := round2_mono (min_le_left _ _)
    _ = workedAvailableForStdOt rows := round2_of_cent (workedAvailable_cent rows)

/-- Concrete rate configuration used by witnesses. -/
def exSettings : Settings :=
  { baseRate := 10, otAddOn := 5, latePremium := 2, nightPremium := 3,
    holidayRate := 4, otThreshold := 160, doubleRate := 2 }

/-! ## Claim theorems -/

/-- C1: for every list of shift rows and every rate configuration (whose
add-on fields are non-negative, as the data model requires),
`computeMonthTotals` computes `otPay = ot × (baseRate + otAddOn)`,
`lateAddPay = late × latePremium`, `nightAddPay = night × nightPremium`,
each rounded to 2 decimals. -/
theorem addon_pay_formulas (rows : List ShiftRow) (s : Settings)
    (hb : 0 ≤ s.baseRate) (hot : 0 ≤ s.otAddOn) (hl : 0 ≤ s.latePremium)
    (hn : 0 ≤ s.nightPremium) :
    (computeMonthTotals rows s).otPay
      = round2 ((computeMonthTotals rows s).ot * (s.baseRate + s.otAddOn)) ∧
    (computeMonthTotals rows s).lateAddPay
      = round2 ((computeMonthTotals rows s).late * s.latePremium) ∧
    (computeMonthTotals rows s).nightAddPay
      = round2 ((computeMonthTotals rows s).night * s.nightPremium) := by
  simp only [computeMonthTotals]
  rw [clampNonNeg_of_nonneg hb, clampNonNeg_of_nonneg hot,
    clampNonNeg_of_nonneg hl, clampNonNeg_of_nonneg hn]
  exact ⟨rfl, rfl, rfl⟩

/-- Witness for C1 at a concrete input. -/
theorem addon_pay_formulas_witness :
    (computeMonthTotals [] exSettings).otPay
      = round2 ((computeMonthTotals [] exSettings).ot
          * (exSettings.baseRate + exSettings.otAddOn)) ∧
    (computeMonthTotals [] exSettings).lateAddPay
      = round2 ((computeMonthTotals [] exSettings).late * exSettings.latePremium) ∧
    (computeMonthTotals [] exSettings).nightAddPay
      = round2 ((computeMonthTotals [] exSettings).night * exSettings.nightPremium) :=
  addon_pay_formulas [] exSettings (by norm_num [exSettings])
    (by norm_num [exSettings]) (by norm_num [exSettings]) (by norm_num [exSettings])

/-- C2: the overtime split of `computeMonthTotals`: each hour bucket is the
(2-decimal-rounded) sum over all rows, `qualifying` is the rounded sum of
the worked, holiday, lieu and bank-holiday totals,
`ot = min(workedEligible, rawOvertime)` and
`std = max(0, workedEligible − ot)` with
`workedEligible = max(0, worked − dbl)` and
`rawOvertime = max(0, qualifying − otThreshold)`; overtime hours never
exceed `workedEligible`. -/
theorem overtime_split_formulas (rows : List ShiftRow) (s : Settings)
    (hth : 0 ≤ s.otThreshold) :
    (computeMonthTotals rows s).worked = round2 (sumBy rows (·.worked)) ∧
    (computeMonthTotals rows s).hol = round2 (sumBy rows (·.hol)) ∧
    (computeMonthTotals rows s).lieu = round2 (sumBy rows (·.lieu)) ∧
    (computeMonthTotals rows s).bankHol = round2 (sumBy rows (·.bankHol)) ∧
    (computeMonthTotals rows s).qualifying
      = round2 ((computeMonthTotals rows s).worked + (computeMonthTotals rows s).hol
          + (computeMonthTotals rows s).lieu + (computeMonthTotals rows s).bankHol) ∧
    (computeMonthTotals rows s).ot
      = round2 (min (max 0 ((computeMonthTotals rows s).worked - (computeMonthTotals rows s).dbl))
          (max 0 ((computeMonthTotals rows s).qualifying - s.otThreshold))) ∧
    (computeMonthTotals rows s).std
      = round2 (max 0 (max 0 ((computeMonthTotals rows s).worked - (computeMonthTotals rows s).dbl)
          - (computeMonthTotals rows s).ot)) ∧
    (computeMonthTotals rows s).ot
      ≤ max 0 ((computeMonthTotals rows s).worked - (computeMonthTotals rows s).dbl) := by
  simp only [computeMonthTotals]
  refine ⟨rfl, rfl, rfl, rfl, rfl, ?_, rfl, ?_⟩
  · unfold totOt otRaw workedAvailableForStdOt
    rw [clampNonNeg_of_nonneg hth]
  · have h := totOt_le_workedAvailable rows s
    unfold workedAvailableForStdOt at h
    exact h

/-- Witness for C2 at a concrete input. -/
theorem overtime_split_formulas_witness :
    (computeMonthTotals [] exSettings).worked = round2 (sumBy [] (·.worked)) ∧
    (computeMonthTotals [] exSettings).hol = round2 (sumBy [] (·.hol)) ∧
    (computeMonthTotals [] exSettings).lieu = round2 (sumBy [] (·.lieu)) ∧
    (computeMonthTotals [] exSettings).bankHol = round2 (sumBy [] (·.bankHol)) ∧
    (computeMonthTotals [] exSettings).qualifying
      = round2 ((computeMonthTotals [] exSettings).worked + (computeMonthTotals [] exSettings).hol
          + (computeMonthTotals [] exSettings).lieu + (computeMonthTotals [] exSettings).bankHol) ∧
    (computeMonthTotals [] exSettings).ot
      = round2 (min (max 0 ((computeMonthTotals [] exSettings).worked - (computeMonthTotals [] exSettings).dbl))
          (max 0 ((computeMonthTotals [] exSettings).qualifying - exSettings.otThreshold))) ∧
    (computeMonthTotals [] exSettings).std
      = round2 (max 0 (max 0 ((computeMonthTotals [] exSettings).worked - (computeMonthTotals [] exSettings).dbl)
          - (computeMonthTotals [] exSettings).ot)) ∧
    (computeMonthTotals [] exSettings).ot
      ≤ max 0 ((computeMonthTotals [] exSettings).worked - (computeMonthTotals [] exSettings).dbl) :=
  overtime_split_formulas [] exSettings (by norm_num [exSettings])

/-- C9: every hour field and every pay field of the row breakdown and of
the month totals is non-negative, for all inputs.  Negative numeric inputs
are clamped by `clampNonNeg`; non-finite JS numbers, which the same
function also clamps to 0, have no counterpart in the exact rational
model. -/
theorem outputs_nonneg :
    (∀ r : ShiftRow,
      0 ≤ (computeRowBreakdown r).worked ∧ 0 ≤ (computeRowBreakdown r).hol ∧
      0 ≤ (computeRowBreakdown r).lieu ∧ 0 ≤ (computeRowBreakdown r).bankHol ∧
      0 ≤ (computeRowBreakdown r).dbl ∧ 0 ≤ (computeRowBreakdown r).unpaidFull ∧
      0 ≤ (computeRowBreakdown r).unpaidPart ∧ 0 ≤ (computeRowBreakdown r).sick ∧
      0 ≤ (computeRowBreakdown r).late ∧ 0 ≤ (computeRowBreakdown r).night) ∧
    (∀ (rows : List ShiftRow) (s : Settings),
      0 ≤ (computeMonthTotals rows s).worked ∧
      0 ≤ (computeMonthTotals rows s).qualifying ∧
      0 ≤ (computeMonthTotals rows s).std ∧
      0 ≤ (computeMonthTotals rows s).ot ∧
      0 ≤ (computeMonthTotals rows s).late ∧
      0 ≤ (computeMonthTotals rows s).night ∧
      0 ≤ (computeMonthTotals rows s).hol ∧
      0 ≤ (computeMonthTotals rows s).lieu ∧
      0 ≤ (computeMonthTotals rows s).bankHol ∧
      0 ≤ (computeMonthTotals rows s).dbl ∧
      0 ≤ (computeMonthTotals rows s).unpaidFull ∧
      0 ≤ (computeMonthTotals rows s).unpaidPart ∧
      0 ≤ (computeMonthTotals rows s).sick ∧
      0 ≤ (computeMonthTotals rows s).stdPay ∧
      0 ≤ (computeMonthTotals rows s).otPay ∧
      0 ≤ (computeMonthTotals rows s).sickPay ∧
      0 ≤ (computeMonthTotals rows s).lateAddPay ∧
      0 ≤ (computeMonthTotals rows s).nightAddPay ∧
      0 ≤ (computeMonthTotals rows s).lieuPay ∧
      0 ≤ (computeMonthTotals rows s).bankHolPay ∧
      0 ≤ (computeMonthTotals rows s).doublePay ∧
      0 ≤ (computeMonthTotals rows s).holPay ∧
      0 ≤ (computeMonthTotals rows s).totalPay) := by
  constructor
  · exact breakdown_nonneg
  · intro rows s
    have hp1 : 0 ≤ round2 (totStd rows s * clampNonNeg s.baseRate) :=
      round2_nonneg (mul_nonneg (totStd_nonneg rows s) (clampNonNeg_nonneg _))
    have hp2 : 0 ≤ round2 (totOt rows s * (clampNonNeg s.baseRate + clampNonNeg s.otAddOn)) :=
      round2_nonneg (mul_nonneg (totOt_nonneg rows s)
        (add_nonneg (clampNonNeg_nonneg _) (clampNonNeg_nonneg _)))
    have hp3 : 0 ≤ round2 (totSick rows * clampNonNeg s.baseRate) :=
      round2_nonneg (mul_nonneg (totSick_nonneg rows) (clampNonNeg_nonneg _))
    have hp4 : 0 ≤ round2 (totLate rows * clampNonNeg s.latePremium) :=
      round2_nonneg (mul_nonneg (totLate_nonneg rows) (clampNonNeg_nonneg _))
    have hp5 : 0 ≤ round2 (totNight rows * clampNonNeg s.nightPremium) :=
      round2_nonneg (mul_nonneg (totNight_nonneg rows) (clampNonNeg_nonneg _))
    have hp6 : 0 ≤ round2 (totLieu rows * clampNonNeg s.baseRate) :=
      round2_nonneg (mul_nonneg (totLieu_nonneg rows) (clampNonNeg_nonneg _))
    have hp7 : 0 ≤ round2 (totBankHol rows * clampNonNeg s.baseRate) :=
      round2_nonneg (mul_nonneg (totBankHol_nonneg rows) (clampNonNeg_nonneg _))
    have hp8 : 0 ≤ round2 (totDbl rows * clampNonNeg s.baseRate * clampNonNeg s.doubleRate) :=
      round2_nonneg (mul_nonneg (mul_nonneg (totDbl_nonneg rows) (clampNonNeg_nonneg _))
        (clampNonNeg_nonneg _))
    have hp9 : 0 ≤ round2 (totHol rows * clampNonNeg s.holidayRate) :=
      round2_nonneg (mul_nonneg (totHol_nonneg rows) (clampNonNeg_nonneg _))
    refine ⟨totWorked_nonneg rows, totQualifying_nonneg rows, totStd_nonneg rows s,
      totOt_nonneg rows s, totLate_nonneg rows, totNight_nonneg rows,
      totHol_nonneg rows, totLieu_nonneg rows, totBankHol_nonneg rows,
      totDbl_nonneg rows, totUnpaidFull_nonneg rows, totUnpaidPart_nonneg rows,
      totSick_nonneg rows, hp1, hp2, hp3, hp4, hp5, hp6, hp7, hp8, hp9, ?_⟩
    exact round2_nonneg (by linarith)

/-- C7: a row with at least one full absence flag set yields worked = 0 and
assigns the whole base-shift length to exactly one bucket, by the fixed
precedence unpaid > holiday > lieu > bank holiday, the other three buckets
receiving 0 (the function is total, so no error is possible). -/
theorem full_flag_precedence (r : ShiftRow)
    (h : r.unpaidFlag = some "Y" ∨ r.holidayFlag = some "Y" ∨
         r.lieuFlag = some "Y" ∨ r.bankHolFlag = some "Y") :
    (computeRowBreakdown r).worked = 0 ∧
    ((computeRowBreakdown r).unpaidFull, (computeRowBreakdown r).hol,
     (computeRowBreakdown r).lieu, (computeRowBreakdown r).bankHol)
      = (if r.unpaidFlag = some "Y" then (baseShift r, 0, 0, 0)
         else if r.holidayFlag = some "Y" then (0, baseShift r, 0, 0)
         else if r.lieuFlag = some "Y" then (0, 0, baseShift r, 0)
         else (0, 0, 0, baseShift r)) := by
  have hoff : offFull r := h
  have hrem : remainder1 r = 0 := by unfold remainder1; rw [if_pos hoff]
  have hpart : partAlloc r = (0, 0, 0, 0) := by
    unfold partAlloc
    rw [hrem]
    norm_num
  constructor
  · show workedPhysical r = 0
    unfold workedPhysical
    rw [if_pos hoff]
  · simp only [computeRowBreakdown, hpart]
    norm_num
    unfold fullAlloc
    split_ifs with h1 h2 h3 h4
    · rfl
    · rfl
    · rfl
    · rfl
    · rcases h with h | h | h | h <;> contradiction

/-- Concrete row for the C7 witness: two conflicting full flags. -/
def rowC7 : ShiftRow :=
  { scheduledHours := some 8, holidayFlag := some "Y", lieuFlag := some "Y" }

/-- Witness for C7: holiday wins over lieu, worked is zeroed. -/
theorem full_flag_precedence_witness :
    (computeRowBreakdown rowC7).worked = 0 ∧
    ((computeRowBreakdown rowC7).unpaidFull, (computeRowBreakdown rowC7).hol,
     (computeRowBreakdown rowC7).lieu, (computeRowBreakdown rowC7).bankHol)
      = (0, 8, 0, 0) := by
  have h := full_flag_precedence rowC7 (Or.inr (Or.inl rfl))
  have hb : baseShift rowC7 = 8 := by
    norm_num [baseShift, sh, rowC7, clampNonNeg]
  refine ⟨h.1, ?_⟩
  rw [h.2, hb]
  simp [rowC7]

/-- C10: `computeRowBreakdown` depends only on `scheduledHours`,
`startTime`, `endTime`, the five flags and `sickHours`: two rows that
differ only in `id` and `date` get identical breakdowns, so the
bank-holiday bucket is driven solely by the `bankHolFlag`, never by the
calendar date. -/
theorem breakdown_ignores_id_date (id1 date1 id2 date2 : String)
    (shq : Option ℚ) (st et hf uf lf bf df : Option String) (sk : Option ℚ) :
    computeRowBreakdown ⟨id1, date1, shq, st, et, hf, uf, lf, bf, df, sk⟩
      = computeRowBreakdown ⟨id2, date2, shq, st, et, hf, uf, lf, bf, df, sk⟩ := rfl

/-! ## Evaluation lemmas for concrete rows -/

theorem computeWorkedHours_nonneg (st et : Option String) :
    0 ≤ computeWorkedHours st et := by
  unfold computeWorkedHours
  rcases toMinutesD st with _ | s
  · simp
  · rcases toMinutesD et with _ | e
    · simp
    · dsimp only
      apply round2_nonneg
      have h1 : (0 : ℤ) ≤ max 0 ((if e ≤ s then (e : ℤ) + 24 * 60 else (e : ℤ)) - (s : ℤ)) :=
        le_max_left _ _
      have h2 : (0 : ℚ) ≤ ((max 0 ((if e ≤ s then (e : ℤ) + 24 * 60 else (e : ℤ)) - (s : ℤ)) : ℤ) : ℚ) := by
        exact_mod_cast h1
      exact div_nonneg h2 (by norm_num)

theorem whRaw_eq (r : ShiftRow) :
    whRaw r = computeWorkedHours r.startTime r.endTime :=
  clampNonNeg_of_nonneg (computeWorkedHours_nonneg _ _)

theorem computeWorkedHours_eval {st et : String} {s e : ℕ}
    (hs : toMinutes st = some s) (he : toMinutes et = some e) :
    computeWorkedHours (some st) (some et)
      = round2 (((max 0 ((if e ≤ s then (e : ℤ) + 24 * 60 else (e : ℤ)) - (s : ℤ)) : ℤ) : ℚ) / 60) := by
  unfold computeWorkedHours toMinutesD
  simp only [Option.getD_some]
  rw [hs, he]

/-- A flag that reads back as the empty string is neither full nor part. -/
theorem flag_unset {o : Option String} (h : o.getD "" = "") :
    o ≠ some "Y" ∧ o ≠ some "P" := by
  rcases o with _ | v
  · simp
  · simp only [Option.getD_some] at h
    subst h
    simp

/-- C4 (amended): for a row with all five flags unset, the absence buckets
are all 0 and worked hours equal `computeWorkedHours(start,end)` capped at
the base-shift length — equal to `computeWorkedHours` exactly when the
computed hours do not exceed it. -/
theorem no_flags_breakdown (r : ShiftRow)
    (h1 : r.holidayFlag.getD "" = "") (h2 : r.unpaidFlag.getD "" = "")
    (h3 : r.lieuFlag.getD "" = "") (h4 : r.bankHolFlag.getD "" = "")
    (h5 : r.doubleFlag.getD "" = "") :
    (computeRowBreakdown r).worked
        = min (computeWorkedHours r.startTime r.endTime) (baseShift r) ∧
    (computeWorkedHours r.startTime r.endTime ≤ baseShift r →
      (computeRowBreakdown r).worked = computeWorkedHours r.startTime r.endTime) ∧
    (computeRowBreakdown r).hol = 0 ∧ (computeRowBreakdown r).lieu = 0 ∧
    (computeRowBreakdown r).bankHol = 0 ∧ (computeRowBreakdown r).dbl = 0 ∧
    (computeRowBreakdown r).unpaidFull = 0 ∧ (computeRowBreakdown r).unpaidPart = 0 := by
  obtain ⟨h1Y, h1P⟩ := flag_unset h1
  obtain ⟨h2Y, h2P⟩ := flag_unset h2
  obtain ⟨h3Y, h3P⟩ := flag_unset h3
  obtain ⟨h4Y, h4P⟩ := flag_unset h4
  obtain ⟨h5Y, h5P⟩ := flag_unset h5
  have hoff : ¬ offFull r := by
    unfold offFull
    push_neg
    exact ⟨h2Y, h1Y, h3Y, h4Y⟩
  have hwp : workedPhysical r = min (computeWorkedHours r.startTime r.endTime) (baseShift r) := by
    unfold workedPhysical
    rw [if_neg hoff, whRaw_eq]
  have hfull : fullAlloc r = (0, 0, 0, 0) := by
    simp [fullAlloc, h1Y, h2Y, h3Y, h4Y]
  have hpart : partAlloc r = (0, 0, 0, 0) := by
    simp [partAlloc, h1P, h2P, h3P, h4P]
  have hdbl : dblHours r = 0 := by
    simp [dblHours, h5Y, h5P]
  refine ⟨hwp, ?_, ?_, ?_, ?_, hdbl, ?_, ?_⟩
  · intro hle
    exact hwp.trans (min_eq_left hle)
  · show (fullAlloc r).2.1 + (partAlloc r).2.1 = 0
    rw [hfull, hpart]
    norm_num
  · show (fullAlloc r).2.2.1 + (partAlloc r).2.2.1 = 0
    rw [hfull, hpart]
    norm_num
  · show (fullAlloc r).2.2.2 + (partAlloc r).2.2.2 = 0
    rw [hfull, hpart]
    norm_num
  · show (fullAlloc r).1 = 0
    rw [hfull]
  · show (partAlloc r).1 = 0
    rw [hpart]

theorem tm_0600 : toMinutes "06:00" = some 360 := by decide

theorem tm_0900 : toMinutes "09:00" = some 540 := by decide

theorem tm_1500 : toMinutes "15:00" = some 900 := by decide

theorem tm_1700 : toMinutes "17:00" = some 1020 := by decide

theorem tm_1900 : toMinutes "19:00" = some 1140 := by decide

theorem tm_2200 : toMinutes "22:00" = some 1320 := by decide

/-- Row with no flags whose computed worked hours stay within the schedule. -/
def rowC4w : ShiftRow := { startTime := some "09:00", endTime := some "17:00" }

/-- Witness for C4 at a concrete input: 09:00–17:00, no flags. -/
theorem no_flags_breakdown_witness :
    (computeRowBreakdown rowC4w).worked
      = computeWorkedHours rowC4w.startTime rowC4w.endTime ∧
    (computeRowBreakdown rowC4w).hol = 0 ∧ (computeRowBreakdown rowC4w).lieu = 0 ∧
    (computeRowBreakdown rowC4w).bankHol = 0 ∧ (computeRowBreakdown rowC4w).dbl = 0 ∧
    (computeRowBreakdown rowC4w).unpaidFull = 0 ∧
    (computeRowBreakdown rowC4w).unpaidPart = 0 := by
  have h := no_flags_breakdown rowC4w rfl rfl rfl rfl rfl
  have hsh : sh rowC4w = 0 := by norm_num [sh, rowC4w, clampNonNeg]
  have hbs : baseShift rowC4w = computeWorkedHours rowC4w.startTime rowC4w.endTime := by
    unfold baseShift
    rw [hsh]
    norm_num
    exact whRaw_eq rowC4w
  exact ⟨h.2.1 (le_of_eq hbs.symm), h.2.2.1, h.2.2.2.1, h.2.2.2.2.1,
    h.2.2.2.2.2.1, h.2.2.2.2.2.2.1, h.2.2.2.2.2.2.2⟩

/-- Row refuting C4 as stated: 10 computed hours against an 8-hour schedule. -/
def rowC4cex : ShiftRow :=
  { scheduledHours := some 8, startTime := some "09:00", endTime := some "19:00" }

/-- Counterexample to C4 as stated: all five flags are unset, yet worked
hours (capped at the 8-hour base shift) differ from
`computeWorkedHours(start,end) = 10`. -/
theorem no_flags_breakdown_cex :
    rowC4cex.holidayFlag.getD "" = "" ∧ rowC4cex.unpaidFlag.getD "" = "" ∧
    rowC4cex.lieuFlag.getD "" = "" ∧ rowC4cex.bankHolFlag.getD "" = "" ∧
    rowC4cex.doubleFlag.getD "" = "" ∧
    (computeRowBreakdown rowC4cex).worked
      ≠ computeWorkedHours rowC4cex.startTime rowC4cex.endTime := by
  have hcw : computeWorkedHours rowC4cex.startTime rowC4cex.endTime = 10 := by
    show computeWorkedHours (some "09:00") (some "19:00") = 10
    rw [computeWorkedHours_eval tm_0900 tm_1900]
    norm_num [round2]
  have hsh : sh rowC4cex = 8 := by norm_num [sh, rowC4cex, clampNonNeg]
  have hbs : baseShift rowC4cex = 8 := by unfold baseShift; rw [hsh]; norm_num
  have hwr : whRaw rowC4cex = 10 := by rw [whRaw_eq, hcw]
  have hoff : ¬ offFull rowC4cex := by
    unfold offFull rowC4cex
    simp
  have hw : (computeRowBreakdown rowC4cex).worked = 8 := by
    show workedPhysical rowC4cex = 8
    unfold workedPhysical
    rw [if_neg hoff, hwr, hbs]
    norm_num
  refine ⟨rfl, rfl, rfl, rfl, rfl, ?_⟩
  rw [hw, hcw]
  norm_num

/-- C5: for a row with no full absence flag, the remainder
`round2(max(0, baseShift − workedPhysical))` is allocated exactly once to
the first part flag in precedence order unpaid > holiday > lieu >
bankHoliday (the other part buckets receive 0), and a part double flag
instead yields `dbl = round2(min(worked, baseShift / 2))`. -/
theorem part_remainder_allocation (r : ShiftRow)
    (h1 : r.unpaidFlag ≠ some "Y") (h2 : r.holidayFlag ≠ some "Y")
    (h3 : r.lieuFlag ≠ some "Y") (h4 : r.bankHolFlag ≠ some "Y") :
    ((computeRowBreakdown r).unpaidPart, (computeRowBreakdown r).hol,
     (computeRowBreakdown r).lieu, (computeRowBreakdown r).bankHol)
      = (if r.unpaidFlag = some "P" then (round2 (max 0 (baseShift r - workedPhysical r)), 0, 0, 0)
         else if r.holidayFlag = some "P" then (0, round2 (max 0 (baseShift r - workedPhysical r)), 0, 0)
         else if r.lieuFlag = some "P" then (0, 0, round2 (max 0 (baseShift r - workedPhysical r)), 0)
         else if r.bankHolFlag = some "P" then (0, 0, 0, round2 (max 0 (baseShift r - workedPhysical r)))
         else (0, 0, 0, 0)) ∧
    (r.doubleFlag = some "P" →
      (computeRowBreakdown r).dbl
        = round2 (min (computeRowBreakdown r).worked (baseShift r / 2))) := by
  have hoff : ¬ offFull r := by
    unfold offFull
    push_neg
    exact ⟨h1, h2, h3, h4⟩
  have hfull : fullAlloc r = (0, 0, 0, 0) := by
    simp [fullAlloc, h1, h2, h3, h4]
  have hrem : remainder1 r = remainder0 r := by
    unfold remainder1
    rw [if_neg hoff]
  constructor
  · simp only [computeRowBreakdown, hfull]
    norm_num
    show partAlloc r = _
    rcases lt_or_le 0 (remainder1 r) with hpos | hle
    · unfold partAlloc
      rw [if_pos hpos, hrem] at *
      rw [hrem] at hpos
      unfold remainder0 at *
      rfl
    · have hr0 : remainder1 r = 0 := le_antisymm hle (remainder1_nonneg r)
      have hrem0 : round2 (max 0 (baseShift r - workedPhysical r)) = 0 := by
        rw [← remainder0, ← hrem, hr0]
      unfold partAlloc
      rw [if_neg (by rw [hr0]; exact lt_irrefl 0)]
      rw [hrem0]
      split_ifs <;> rfl
  · intro hdf
    show dblHours r = _
    unfold dblHours
    rw [if_neg (by rw [hdf]; simp), if_pos hdf]
    rfl

/-- Concrete row for the C5 witness: 10 scheduled hours, 6 worked,
part holiday. -/
def rowC5 : ShiftRow :=
  { scheduledHours := some 10, startTime := some "09:00", endTime := some "15:00",
    holidayFlag := some "P" }

/-- Witness for C5: the 4-hour remainder goes to the holiday bucket, worked
stays 6. -/
theorem part_remainder_allocation_witness :
    (computeRowBreakdown rowC5).hol = 4 ∧ (computeRowBreakdown rowC5).worked = 6 := by
  have hcw : computeWorkedHours rowC5.startTime rowC5.endTime = 6 := by
    show computeWorkedHours (some "09:00") (some "15:00") = 6
    rw [computeWorkedHours_eval tm_0900 tm_1500]
    norm_num [round2]
  have hsh : sh rowC5 = 10 := by norm_num [sh, rowC5, clampNonNeg]
  have hbs : baseShift rowC5 = 10 := by unfold baseShift; rw [hsh]; norm_num
  have hwr : whRaw rowC5 = 6 := by rw [whRaw_eq, hcw]
  have hoff : ¬ offFull rowC5 := by
    unfold offFull rowC5
    simp
  have hw : (computeRowBreakdown rowC5).worked = 6 := by
    show workedPhysical rowC5 = 6
    unfold workedPhysical
    rw [if_neg hoff, hwr, hbs]
    norm_num
  have h := (part_remainder_allocation rowC5 (by simp [rowC5]) (by simp [rowC5])
    (by simp [rowC5]) (by simp [rowC5])).1
  have hwp : workedPhysical rowC5 = 6 := hw
  rw [hbs, hwp] at h
  have hrem : round2 (max 0 ((10 : ℚ) - 6)) = 4 := by norm_num [round2]
  rw [hrem] at h
  have hu : rowC5.unpaidFlag ≠ some "P" := by simp [rowC5]
  have hh : rowC5.holidayFlag = some "P" := rfl
  rw [if_neg hu, if_pos hh] at h
  have hhol : (computeRowBreakdown rowC5).hol = 4 := by
    have := congrArg (fun t => t.2.1) h
    simpa using this
  exact ⟨hhol, hw⟩

/-- C6 (amended): with `double=full` and no full absence flag, worked hours
are not zeroed (they remain `min(whRaw, baseShift)`), and the double bucket
receives `round2(min(baseShift, whRaw))` when some time was computed
(`baseShift` itself when `whRaw = 0`); whenever some time was physically
computed, the double bucket never exceeds the rounded worked hours. -/
theorem full_double_breakdown (r : ShiftRow) :
    (r.doubleFlag = some "Y" → ¬ offFull r →
      (computeRowBreakdown r).worked = min (whRaw r) (baseShift r) ∧
      (computeRowBreakdown r).dbl
        = round2 (min (baseShift r) (if whRaw r = 0 then baseShift r else whRaw r))) ∧
    (¬ offFull r → 0 < whRaw r →
      (computeRowBreakdown r).dbl ≤ round2 ((computeRowBreakdown r).worked)) := by
  constructor
  · intro hY hoff
    constructor
    · show workedPhysical r = _
      unfold workedPhysical
      rw [if_neg hoff]
    · show dblHours r = _
      unfold dblHours
      rw [if_pos hY]
      congr 2
      split_ifs with h0
      · exact max_eq_right (baseShift_nonneg r)
      · exact max_eq_right (whRaw_nonneg r)
  · intro hoff hpos
    have hwp : workedPhysical r = min (whRaw r) (baseShift r) := by
      unfold workedPhysical
      rw [if_neg hoff]
    show dblHours r ≤ round2 (workedPhysical r)
    unfold dblHours
    split_ifs with hY h0 hP
    · exact absurd h0 (ne_of_gt hpos)
    · rw [max_eq_right (whRaw_nonneg r), hwp, min_comm]
    · exact round2_mono (min_le_left _ _)
    · exact round2_nonneg (workedPhysical_nonneg r)

/-- Concrete row for the C6 witness: full double, 6 of 8 scheduled hours
worked. -/
def rowC6w : ShiftRow :=
  { scheduledHours := some 8, startTime := some "09:00", endTime := some "15:00",
    doubleFlag := some "Y" }

/-- Witness for C6 (amended): worked 6, double bucket 6, and the bound
holds. -/
theorem full_double_breakdown_witness :
    (computeRowBreakdown rowC6w).worked = 6 ∧ (computeRowBreakdown rowC6w).dbl = 6 ∧
    (computeRowBreakdown rowC6w).dbl ≤ round2 ((computeRowBreakdown rowC6w).worked) := by
  have hcw : computeWorkedHours rowC6w.startTime rowC6w.endTime = 6 := by
    show computeWorkedHours (some "09:00") (some "15:00") = 6
    rw [computeWorkedHours_eval tm_0900 tm_1500]
    norm_num [round2]
  have hwr : whRaw rowC6w = 6 := by rw [whRaw_eq, hcw]
  have hsh : sh rowC6w = 8 := by norm_num [sh, rowC6w, clampNonNeg]
  have hbs : baseShift rowC6w = 8 := by unfold baseShift; rw [hsh]; norm_num
  have hoff : ¬ offFull rowC6w := by
    unfold offFull rowC6w
    simp
  have h := full_double_breakdown rowC6w
  obtain ⟨hw, hd⟩ := h.1 rfl hoff
  have hw6 : (computeRowBreakdown rowC6w).worked = 6 := by
    rw [hw, hwr, hbs]
    norm_num
  have hd6 : (computeRowBreakdown rowC6w).dbl = 6 := by
    rw [hd, hwr, hbs]
    norm_num [round2]
  exact ⟨hw6, hd6, h.2 hoff (by rw [hwr]; norm_num)⟩

/-- Row refuting C6 as stated: full double with no recorded times. -/
def rowC6 : ShiftRow := { scheduledHours := some 8, doubleFlag := some "Y" }

/-- Counterexample to C6 as stated: with `double=full` and no times, the
double bucket gets the full 8-hour base shift while worked hours are 0, so
the double bucket is not a subset of (exceeds) the worked hours. -/
theorem full_double_cex :
    (computeRowBreakdown rowC6).worked = 0 ∧ (computeRowBreakdown rowC6).dbl = 8 ∧
    ¬ ((computeRowBreakdown rowC6).dbl ≤ (computeRowBreakdown rowC6).worked) := by
  have hcw : computeWorkedHours rowC6.startTime rowC6.endTime = 0 := rfl
  have hwr : whRaw rowC6 = 0 := by rw [whRaw_eq, hcw]
  have hsh : sh rowC6 = 8 := by norm_num [sh, rowC6, clampNonNeg]
  have hbs : baseShift rowC6 = 8 := by unfold baseShift; rw [hsh]; norm_num
  have hoff : ¬ offFull rowC6 := by
    unfold offFull rowC6
    simp
  have hw : (computeRowBreakdown rowC6).worked = 0 := by
    show workedPhysical rowC6 = 0
    unfold workedPhysical
    rw [if_neg hoff, hwr, hbs]
    norm_num
  have hd : (computeRowBreakdown rowC6).dbl = 8 := by
    show dblHours rowC6 = 8
    unfold dblHours
    rw [if_pos (show rowC6.doubleFlag = some "Y" from rfl), hwr, hbs]
    norm_num [round2]
  refine ⟨hw, hd, ?_⟩
  rw [hw, hd]
  norm_num

/-- Concrete row for C8: overnight shift 22:00–06:00, no flags, 8 scheduled
hours. -/
def rowC8 : ShiftRow :=
  { scheduledHours := some 8, startTime := some "22:00", endTime := some "06:00" }

theorem lateNight_2200_0600 :
    computeLateNightHours (some "22:00") (some "06:00")
      = { lateHours := 0, nightHours := 8 } := by
  unfold computeLateNightHours toMinutesD
  simp only [Option.getD_some]
  rw [tm_2200, tm_0600]
  norm_num [lateMinutes, nightMinutes, overlap, round2, LateNight.mk.injEq]

theorem cwh_rowC8 : computeWorkedHours rowC8.startTime rowC8.endTime = 8 := by
  show computeWorkedHours (some "22:00") (some "06:00") = 8
  rw [computeWorkedHours_eval tm_2200 tm_0600]
  norm_num [round2]

theorem whRaw_rowC8 : whRaw rowC8 = 8 := by rw [whRaw_eq, cwh_rowC8]

theorem baseShift_rowC8 : baseShift rowC8 = 8 := by
  have hsh : sh rowC8 = 8 := by norm_num [sh, rowC8, clampNonNeg]
  unfold baseShift
  rw [hsh]
  norm_num

theorem workedPhysical_rowC8 : workedPhysical rowC8 = 8 := by
  have hoff : ¬ offFull rowC8 := by
    unfold offFull rowC8
    simp
  unfold workedPhysical
  rw [if_neg hoff, whRaw_rowC8, baseShift_rowC8]
  norm_num

theorem premiums_rowC8 : premiums rowC8 = { lateHours := 0, nightHours := 8 } := by
  have hnb : ¬ premiumsBlocked rowC8 := by simp [premiumsBlocked, rowC8]
  have hnp : ¬ premiumsProtected rowC8 := by simp [premiumsProtected, rowC8]
  have hpe : premEnd rowC8 = "06:00" := by
    unfold premEnd
    rw [if_neg (fun hc => hnp hc.1)]
    rfl
  unfold premiums
  rw [if_pos ⟨hnb, by rw [baseShift_rowC8]; norm_num, by simp [rowC8]⟩]
  dsimp only
  rw [if_pos (Or.inr (by rw [workedPhysical_rowC8]; norm_num))]
  rw [hpe, show rowC8.startTime = some "22:00" from rfl, lateNight_2200_0600]
  norm_num [clampNonNeg, LateNight.mk.injEq]

/-- C8: worked hours are the wall-clock minutes from start to end with 24
hours added when end ≤ start; invalid or missing time strings yield 0; and
the overnight example 22:00–06:00 with no flags and 8 scheduled hours gives
worked 8, night 8, late 0. -/
theorem worked_hours_overnight (st et : String) (s e : ℕ)
    (hs : toMinutes st = some s) (he : toMinutes et = some e) :
    computeWorkedHours (some st) (some et)
      = round2 (((((if e ≤ s then (e : ℤ) + 24 * 60 else (e : ℤ)) - (s : ℤ)) : ℤ) : ℚ) / 60) ∧
    (∀ st' et' : Option String, toMinutesD st' = none ∨ toMinutesD et' = none →
      computeWorkedHours st' et' = 0) ∧
    (computeRowBreakdown rowC8).worked = 8 ∧
    (computeRowBreakdown rowC8).night = 8 ∧
    (computeRowBreakdown rowC8).late = 0 := by
  refine ⟨?_, ?_, ?_, ?_, ?_⟩
  · have hlt := toMinutes_lt_1440 hs
    rw [computeWorkedHours_eval hs he]
    have hmax : max 0 ((if e ≤ s then (e : ℤ) + 24 * 60 else (e : ℤ)) - (s : ℤ))
        = (if e ≤ s then (e : ℤ) + 24 * 60 else (e : ℤ)) - (s : ℤ) := by
      apply max_eq_right
      split_ifs with h' <;> omega
    rw [hmax]
  · intro st' et' h
    unfold computeWorkedHours
    rcases hs' : toMinutesD st' with _ | s' <;>
      rcases he' : toMinutesD et' with _ | e' <;> simp_all
  · exact workedPhysical_rowC8
  · show (premiums rowC8).nightHours = 8
    rw [premiums_rowC8]
  · show (premiums rowC8).lateHours = 0
    rw [premiums_rowC8]

theorem tm_2300 : toMinutes "23:00" = some 1380 := by decide

/-- C3 (amended): for a protected row (a lieu, bank-holiday or double flag
set full or part), premiums not blocked, a positive scheduled length whose
minute rounding `m` lies between 1 minute and 24 hours, and a valid start
time, the breakdown's late and night hours are the premium-window overlaps
of the scheduled span `[s, s + m]` — independent of the actual clock-out
time, even when no physical hours were worked. -/
theorem protected_premiums_scheduled_window (r : ShiftRow) (st : String)
    (s : ℕ) (q : ℚ) (m : ℕ)
    (hst : r.startTime = some st) (hs : toMinutes st = some s)
    (hsch : r.scheduledHours = some q) (hq : 0 < q)
    (hm : m = (jsRound (q * 60)).toNat) (hm1 : 1 ≤ m) (hm2 : m ≤ 1440)
    (hprot : (r.lieuFlag = some "Y" ∨ r.lieuFlag = some "P") ∨
             (r.bankHolFlag = some "Y" ∨ r.bankHolFlag = some "P") ∨
             (r.doubleFlag = some "Y" ∨ r.doubleFlag = some "P"))
    (hnh : r.holidayFlag ≠ some "Y") (hnu : r.unpaidFlag ≠ some "Y") :
    (computeRowBreakdown r).late
      = round2 ((lateMinutes (s : ℤ) ((s : ℤ) + (m : ℤ)) : ℚ) / 60) ∧
    (computeRowBreakdown r).night
      = round2 ((nightMinutes (s : ℤ) ((s : ℤ) + (m : ℤ)) : ℚ) / 60) := by
  have hshq : sh r = q := by
    unfold sh
    rw [hsch]
    simp only [Option.getD_some]
    exact clampNonNeg_of_nonneg hq.le
  have hbs : baseShift r = q := by
    unfold baseShift
    rw [hshq, if_pos hq]
  have hPp : premiumsProtected r := by
    unfold premiumsProtected
    rcases hprot with (h | h) | (h | h) | (h | h)
    · exact Or.inl (by rw [h]; simp)
    · exact Or.inl (by rw [h]; simp)
    · exact Or.inr (Or.inl (by rw [h]; simp))
    · exact Or.inr (Or.inl (by rw [h]; simp))
    · exact Or.inr (Or.inr (by rw [h]; simp))
    · exact Or.inr (Or.inr (by rw [h]; simp))
  have hnb : ¬ premiumsBlocked r := fun hb => hb.elim (fun h => hnh h) (fun h => hnu h)
  have hne : r.startTime.getD "" ≠ "" := by
    rw [hst]
    simp only [Option.getD_some]
    exact toMinutes_ne_empty hs
  have hclq : clampNonNeg q = q := clampNonNeg_of_nonneg hq.le
  have hpe : premEnd r = fmtHM ((s + m) % 1440) := by
    unfold premEnd
    rw [if_pos ⟨hPp, by rw [hshq]; exact hq⟩, hst]
    simp only [Option.getD_some]
    rw [hshq, addHoursToTime_of_some hs, hclq, ← hm]
  have hfm : toMinutes (fmtHM ((s + m) % 1440)) = some ((s + m) % 1440) :=
    toMinutes_fmtHM (Nat.mod_lt _ (by norm_num))
  have hslt : s < 1440 := toMinutes_lt_1440 hs
  have he' : (if (s + m) % 1440 ≤ s then (((s + m) % 1440 : ℕ) : ℤ) + 24 * 60
        else (((s + m) % 1440 : ℕ) : ℤ)) = (s : ℤ) + (m : ℤ) := by
    split_ifs with h <;> · push_cast; omega
  have hp : computeLateNightHours r.startTime (some (premEnd r))
      = { lateHours := round2 ((lateMinutes (s : ℤ) ((s : ℤ) + (m : ℤ)) : ℚ) / 60),
          nightHours := round2 ((nightMinutes (s : ℤ) ((s : ℤ) + (m : ℤ)) : ℚ) / 60) } := by
    rw [hst, hpe]
    unfold computeLateNightHours toMinutesD
    simp only [Option.getD_some]
    rw [hs, hfm]
    dsimp only
    rw [he']
  have hlnn : (0 : ℚ) ≤ (lateMinutes (s : ℤ) ((s : ℤ) + (m : ℤ)) : ℚ) / 60 := by
    have := lateMinutes_nonneg (s : ℤ) ((s : ℤ) + (m : ℤ))
    have hc : (0 : ℚ) ≤ ((lateMinutes (s : ℤ) ((s : ℤ) + (m : ℤ)) : ℤ) : ℚ) := by
      exact_mod_cast this
    exact div_nonneg hc (by norm_num)
  have hnnn : (0 : ℚ) ≤ (nightMinutes (s : ℤ) ((s : ℤ) + (m : ℤ)) : ℚ) / 60 := by
    have := nightMinutes_nonneg (s : ℤ) ((s : ℤ) + (m : ℤ))
    have hc : (0 : ℚ) ≤ ((nightMinutes (s : ℤ) ((s : ℤ) + (m : ℤ)) : ℤ) : ℚ) := by
      exact_mod_cast this
    exact div_nonneg hc (by norm_num)
  have hpr : premiums r
      = { lateHours := round2 ((lateMinutes (s : ℤ) ((s : ℤ) + (m : ℤ)) : ℚ) / 60),
          nightHours := round2 ((nightMinutes (s : ℤ) ((s : ℤ) + (m : ℤ)) : ℚ) / 60) } := by
    unfold premiums
    rw [if_pos ⟨hnb, by rw [hbs]; exact hq, hne⟩]
    dsimp only
    rw [if_pos (Or.inl hPp), hp]
    dsimp only
    rw [clampNonNeg_of_nonneg (round2_nonneg hlnn),
      clampNonNeg_of_nonneg (round2_nonneg hnnn)]
  constructor
  · show (premiums r).lateHours = _
    rw [hpr]
  · show (premiums r).nightHours = _
    rw [hpr]

/-- Concrete row for the C3 witness: full lieu day, 22:00 start, 8
scheduled hours, no clock-out at all. -/
def rowC3w : ShiftRow :=
  { scheduledHours := some 8, startTime := some "22:00", lieuFlag := some "Y" }

/-- Witness for C3 (amended): a full-lieu 22:00 shift of 8 scheduled hours
with no recorded clock-out still earns 8 night hours and 0 late hours. -/
theorem protected_premiums_scheduled_window_witness :
    (computeRowBreakdown rowC3w).late = 0 ∧ (computeRowBreakdown rowC3w).night = 8 := by
  have h := protected_premiums_scheduled_window rowC3w "22:00" 1320 8 480 rfl tm_2200
    rfl (by norm_num)
    (by rw [show jsRound ((8 : ℚ) * 60) = 480 from by norm_num [jsRound]]; rfl)
    (by norm_num) (by norm_num)
    (Or.inl (Or.inl rfl)) (by simp [rowC3w]) (by simp [rowC3w])
  constructor
  · rw [h.1]
    norm_num [lateMinutes, overlap, round2]
  · rw [h.2]
    norm_num [nightMinutes, overlap, round2]

/-- Row refuting C3 as stated: 25 scheduled hours wrap past midnight, so
the code's formatted scheduled end "23:00" reparses as a 1-hour window. -/
def rowC3 : ShiftRow :=
  { scheduledHours := some 25, startTime := some "22:00", lieuFlag := some "P" }

theorem lateNight_2200_2300 :
    computeLateNightHours (some "22:00") (some "23:00")
      = { lateHours := 0, nightHours := 1 } := by
  unfold computeLateNightHours toMinutesD
  simp only [Option.getD_some]
  rw [tm_2200, tm_2300]
  norm_num [lateMinutes, nightMinutes, overlap, round2, LateNight.mk.injEq]

/-- Counterexample to C3 as stated: the row satisfies every condition of
the claim (part lieu, not blocked, positive scheduled hours, valid start),
yet the late hours are not the overlap of the scheduled window
`[22:00, 22:00 + 25h]` (which is 8 late hours; the code yields 0). -/
theorem protected_premiums_scheduled_window_cex :
    rowC3.lieuFlag = some "P" ∧ rowC3.holidayFlag ≠ some "Y" ∧
    rowC3.unpaidFlag ≠ some "Y" ∧ rowC3.scheduledHours = some 25 ∧
    (0 : ℚ) < 25 ∧ rowC3.startTime = some "22:00" ∧ toMinutes "22:00" = some 1320 ∧
    (computeRowBreakdown rowC3).late
      ≠ round2 ((lateMinutes (1320 : ℤ)
          ((1320 : ℤ) + ((jsRound ((25 : ℚ) * 60)).toNat : ℤ)) : ℚ) / 60) := by
  have hsh : sh rowC3 = 25 := by norm_num [sh, rowC3, clampNonNeg]
  have hbs : baseShift rowC3 = 25 := by unfold baseShift; rw [hsh]; norm_num
  have hPp : premiumsProtected rowC3 := by
    unfold premiumsProtected rowC3
    simp
  have hnb : ¬ premiumsBlocked rowC3 := by simp [premiumsBlocked, rowC3]
  have hjs : (jsRound (clampNonNeg 25 * 60)).toNat = 1500 := by
    rw [show jsRound (clampNonNeg 25 * 60) = 1500 from by norm_num [jsRound, clampNonNeg]]
    rfl
  have hpe : premEnd rowC3 = "23:00" := by
    unfold premEnd
    rw [if_pos ⟨hPp, by rw [hsh]; norm_num⟩, hsh]
    rw [show rowC3.startTime.getD "" = "22:00" from rfl]
    rw [addHoursToTime_of_some tm_2200, hjs]
    decide
  have hprem : premiums rowC3 = { lateHours := 0, nightHours := 1 } := by
    unfold premiums
    rw [if_pos ⟨hnb, by rw [hbs]; norm_num, by simp [rowC3]⟩]
    dsimp only
    rw [if_pos (Or.inl hPp), hpe,
      show rowC3.startTime = some "22:00" from rfl, lateNight_2200_2300]
    norm_num [clampNonNeg, LateNight.mk.injEq]
  have hlate : (computeRowBreakdown rowC3).late = 0 := by
    show (premiums rowC3).lateHours = 0
    rw [hprem]
  have hjs' : ((jsRound ((25 : ℚ) * 60)).toNat : ℤ) = 1500 := by
    norm_num [jsRound]
  refine ⟨rfl, by simp [rowC3], by simp [rowC3], rfl, by norm_num, rfl, tm_2200, ?_⟩
  rw [hlate, hjs']
  norm_num [lateMinutes, overlap, round2]

/-- Witness for C8 at concrete times 09:00–17:00. -/
theorem worked_hours_overnight_witness :
    computeWorkedHours (some "09:00") (some "17:00")
      = round2 (((((if (1020 : ℕ) ≤ 540 then (1020 : ℤ) + 24 * 60 else (1020 : ℤ)) - (540 : ℤ)) : ℤ) : ℚ) / 60) ∧
    (∀ st' et' : Option String, toMinutesD st' = none ∨ toMinutesD et' = none →
      computeWorkedHours st' et' = 0) ∧
    (computeRowBreakdown rowC8).worked = 8 ∧
    (computeRowBreakdown rowC8).night = 8 ∧
    (computeRowBreakdown rowC8).late = 0 :=
  worked_hours_overnight "09:00" "17:00" 540 1020 tm_0900 tm_1700

end Wage
